import Mathlib

/-!
Shallow embedding of the messy-migrations user-account service:
the SQLite-backed `UserModel` (src/app/models/user.py), the marshmallow
schemas (src/app/schemas/user.py), and the Flask route handlers
(src/app/routes/user.py), together with theorems checking the
natural-language specification against this embedding.
-/

namespace UserService

/-- JSON values, as produced by `request.get_json()` and consumed by
`jsonify`.  Objects keep field order, matching Python dict semantics. -/
inductive JValue where
  | null : JValue
  | bool : Bool → JValue
  | int : Int → JValue
  | str : String → JValue
  | arr : List JValue → JValue
  | obj : List (String × JValue) → JValue

/-- Python truthiness on a parsed JSON value: `None`, `False`, `0`, `""`,
`[]` and `{}` are falsy.  The routes guard every body with `if not data`. -/
def jfalsy : JValue → Bool
  | .null => true
  | .bool b => !b
  | .int n => n == 0
  | .str s => s.isEmpty
  | .arr l => l.isEmpty
  | .obj o => o.isEmpty

/-- Modelled from the spec: the Password Hasher (flask_bcrypt, a library
outside src/).  §4.1: `hash` embeds a fresh random salt so repeated calls
differ; `verify` recomputes using the salt embedded in the digest and
compares, returning false on any mismatch, never raising.  The salt is
modelled as a natural number drawn from a counter; the recomputable part
of the digest is modelled as the data `verify` needs for the comparison. -/
structure Digest where
  salt : Nat
  body : String
  deriving DecidableEq, Repr

/-- Modelled from the spec: `hash(plaintext) -> digest` with an explicit
salt argument standing for the fresh randomness of each call. -/
def hashPassword (salt : Nat) (plaintext : String) : Digest :=
  ⟨salt, plaintext⟩

/-- Modelled from the spec: `verify(digest, plaintext) -> bool` recomputes
with the embedded salt and compares; total, never raises. -/
def verifyPassword (d : Digest) (plaintext : String) : Bool :=
  d.body == plaintext

/-- Modelled from the spec: a `hash` call consumes one unit of the salt
source and returns the digest together with the advanced source. -/
def hashCall (plaintext : String) (saltSrc : Nat) : Digest × Nat :=
  (hashPassword saltSrc plaintext, saltSrc + 1)

/-- One row of the `users` table from src/init_db.py:
`id INTEGER PRIMARY KEY AUTOINCREMENT, name TEXT NOT NULL,
email TEXT NOT NULL UNIQUE, password TEXT NOT NULL`. -/
structure UserRow where
  id : Nat
  name : String
  email : String
  password : Digest
  deriving DecidableEq, Repr

/-- The database state.  `rows` is the `users` table in storage order.
`nextId` is the AUTOINCREMENT counter (strictly above every rowid ever
issued; SQLite's AUTOINCREMENT never reuses ids of deleted rows).
`saltSrc` is the hasher's randomness source.  `issuedIds` is the history
of ids the store has issued, kept to state monotonicity of id issuance;
deletes do not erase it. -/
structure DB where
  rows : List UserRow
  nextId : Nat
  saltSrc : Nat
  issuedIds : List Nat
  deriving DecidableEq, Repr

/-- Well-formedness maintained by the schema: ids are pairwise distinct
(PRIMARY KEY), every issued id is below the AUTOINCREMENT counter, and
every row's id was issued. -/
def DB.wf (db : DB) : Prop :=
  (db.rows.map UserRow.id).Nodup ∧
  (∀ i ∈ db.issuedIds, i < db.nextId) ∧
  (∀ r ∈ db.rows, r.id ∈ db.issuedIds)

instance (db : DB) : Decidable db.wf := by
  unfold DB.wf
  infer_instance

/-- The only persistence fault the embedded store can raise: violation of
the UNIQUE constraint on `email` (sqlite3.IntegrityError). -/
inductive DbErr where
  | integrityError
  deriving DecidableEq, Repr

/-- Embedding of `dict(row)` for a `SELECT id, name, email` row
(src/app/models/user.py): an ordered field map without the password. -/
def projectRow (r : UserRow) : List (String × JValue) :=
  [("id", .int r.id), ("name", .str r.name), ("email", .str r.email)]

/-- Embedding of `UserModel.get_all_users`: `SELECT id, name, email FROM users`,
each row converted to a dict. -/
def get_all_users (db : DB) : List (List (String × JValue)) :=
  db.rows.map projectRow

/-- Embedding of `UserModel.get_user_by_id`: `SELECT id, name, email FROM users WHERE
id = ?`, first row as a dict, else `None`. -/
def get_user_by_id (db : DB) (user_id : Nat) : Option (List (String × JValue)) :=
  (db.rows.find? (fun r => r.id == user_id)).map projectRow

/-- Embedding of `UserModel.create_user`: hashes the password and runs
`INSERT INTO users (name, email, password) VALUES (?, ?, ?)`.
The UNIQUE constraint on `email` rejects the insert when any existing row
already has that email; otherwise the row is inserted with the
AUTOINCREMENT id and `cursor.lastrowid` is returned. -/
def create_user (db : DB) (name email password : String) :
    Except DbErr (Nat × DB) :=
  if db.rows.any (fun r => r.email == email) then
    .error .integrityError
  else
    let hashed := hashPassword db.saltSrc password
    .ok (db.nextId,
      { rows := db.rows ++ [⟨db.nextId, name, email, hashed⟩],
        nextId := db.nextId + 1,
        saltSrc := db.saltSrc + 1,
        issuedIds := db.issuedIds ++ [db.nextId] })

/-- Embedding of `UserModel.update_user`: `UPDATE users SET name = ?, email = ? WHERE
id = ?`; returns `rowcount > 0`.  The UNIQUE constraint rejects the update
when the new email belongs to a different existing row; when no row
matches the id, nothing is written and the constraint is not exercised. -/
def update_user (db : DB) (user_id : Nat) (name email : String) :
    Except DbErr (Bool × DB) :=
  if db.rows.any (fun r => r.id == user_id) then
    if db.rows.any (fun r => r.id != user_id && r.email == email) then
      .error .integrityError
    else
      .ok (true,
        { db with rows := db.rows.map (fun r =>
            if r.id == user_id then { r with name := name, email := email }
            else r) })
  else
    .ok (false, db)

/-- Embedding of `UserModel.delete_user`: `DELETE FROM users WHERE id = ?`;
returns `rowcount > 0`. -/
def delete_user (db : DB) (user_id : Nat) : Bool × DB :=
  (db.rows.any (fun r => r.id == user_id),
   { db with rows := db.rows.filter (fun r => !(r.id == user_id)) })

/-- ASCII lower-casing, the case folding SQLite's `LIKE` applies. -/
def lowerAscii (c : Char) : Char :=
  if 'A' ≤ c ∧ c ≤ 'Z' then Char.ofNat (c.toNat + 32) else c

/-- All suffixes of a character list, longest first. -/
def suffixes : List Char → List (List Char)
  | [] => [[]]
  | c :: s => (c :: s) :: suffixes s

/-- SQLite `LIKE` pattern matching on character lists: `%` matches any
sequence (the rest of the pattern must match some suffix), `_` matches any
single character, other characters match case-insensitively (ASCII). -/
def likeMatch : List Char → List Char → Bool
  | [], s => s.isEmpty
  | p :: ps, s =>
    if p = '%' then
      (suffixes s).any (fun t => likeMatch ps t)
    else
      match s with
      | [] => false
      | c :: s' => (p = '_' || lowerAscii p = lowerAscii c) && likeMatch ps s'

/-- Embedding of `UserModel.search_users`: `SELECT id, name, email FROM users WHERE
name LIKE ?` with the pattern `f"%{name}%"`. -/
def search_users (db : DB) (name : String) : List (List (String × JValue)) :=
  (db.rows.filter (fun r =>
     likeMatch ('%' :: (name.data ++ ['%'])) r.name.data)).map projectRow

/-- Embedding of `UserModel.verify_login`: `SELECT * FROM users WHERE email = ?`; if a
row is found and bcrypt accepts the password against the stored hash, the
full row is returned, otherwise `None`. -/
def verify_login (db : DB) (email password : String) : Option UserRow :=
  match db.rows.find? (fun r => r.email == email) with
  | some r => if verifyPassword r.password password then some r else none
  | none => none

/-! ## Validation layer (src/app/schemas/user.py, marshmallow semantics) -/

/-- Field lookup in a parsed JSON object (Python dict access). -/
def lookupField (o : List (String × JValue)) (f : String) : Option JValue :=
  (o.find? (fun kv => kv.1 == f)).map Prod.snd

/-- Modelled from the spec: the email-syntax check of marshmallow's
`fields.Email` (library code outside src/); §4.3 requires "valid email
syntax".  Abstracted to: exactly one `@`, separating a non-empty local
part from a non-empty domain containing a dot. -/
def isValidEmail (s : String) : Bool :=
  let cs := s.data
  let lp := cs.takeWhile (fun c => c ≠ '@')
  let dom := (cs.dropWhile (fun c => c ≠ '@')).drop 1
  cs.count '@' == 1 && !lp.isEmpty && !dom.isEmpty && dom.contains '.'

/-- Embedding of `fields.Str(required=True)`: missing key or non-string value is a
field error, any string (empty included) passes. -/
def checkStr (o : List (String × JValue)) (f : String) : Except String String :=
  match lookupField o f with
  | none => .error "Missing data for required field."
  | some (.str s) => .ok s
  | some _ => .error "Not a valid string."

/-- Embedding of `validate.Length(min=n)` chained after a string field. -/
def checkLenMin (n : Nat) (v : Except String String) : Except String String :=
  match v with
  | .ok s =>
    if s.length < n then
      .error ("Shorter than minimum length " ++ toString n ++ ".")
    else .ok s
  | .error m => .error m

/-- Embedding of `fields.Email(required=True)`. -/
def checkEmail (o : List (String × JValue)) (f : String) : Except String String :=
  match lookupField o f with
  | none => .error "Missing data for required field."
  | some (.str s) =>
    if isValidEmail s then .ok s else .error "Not a valid email address."
  | some _ => .error "Not a valid string."

/-- marshmallow's default `unknown = RAISE`: every key outside the
loadable fields (dump_only `id` included) is a field error. -/
def unknownFieldErrors (o : List (String × JValue)) (declared : List String) :
    List (String × String) :=
  (o.filter (fun kv => !(declared.contains kv.1))).map
    (fun kv => (kv.1, "Unknown field."))

/-- Collect the failing checks, keyed by field name, in schema order. -/
def errsOf (l : List (String × Except String String)) : List (String × String) :=
  l.filterMap (fun fe =>
    match fe.2 with
    | .error m => some (fe.1, m)
    | .ok _ => none)

/-- Validated output of `UserSchema.load`. -/
structure CreateData where
  name : String
  email : String
  password : String
  deriving DecidableEq, Repr

/-- Validated output of `UserUpdateSchema.load`. -/
structure UpdateData where
  name : String
  email : String
  deriving DecidableEq, Repr

/-- Validated output of `LoginSchema.load`. -/
structure LoginData where
  email : String
  password : String
  deriving DecidableEq, Repr

/-- Embedding of `UserSchema.load`: `name` required non-empty string, `email` required
valid email, `password` required string of length ≥ 6; `id` is dump_only,
so it is not loadable; errors are collected for every failing field. -/
def load_user_schema (o : List (String × JValue)) :
    Except (List (String × String)) CreateData :=
  let nameR := checkLenMin 1 (checkStr o "name")
  let emailR := checkEmail o "email"
  let pwR := checkLenMin 6 (checkStr o "password")
  let unknown := unknownFieldErrors o ["name", "email", "password"]
  match nameR, emailR, pwR, unknown with
  | .ok n, .ok e, .ok p, [] => .ok ⟨n, e, p⟩
  | _, _, _, _ =>
    .error (errsOf [("name", nameR), ("email", emailR), ("password", pwR)]
            ++ unknown)

/-- Embedding of `UserUpdateSchema.load`: `name` required non-empty string, `email`
required valid email; no password field. -/
def load_update_schema (o : List (String × JValue)) :
    Except (List (String × String)) UpdateData :=
  let nameR := checkLenMin 1 (checkStr o "name")
  let emailR := checkEmail o "email"
  let unknown := unknownFieldErrors o ["name", "email"]
  match nameR, emailR, unknown with
  | .ok n, .ok e, [] => .ok ⟨n, e⟩
  | _, _, _ =>
    .error (errsOf [("name", nameR), ("email", emailR)] ++ unknown)

/-- Embedding of `LoginSchema.load`: `email` required valid email, `password` required
string — note: no length constraint, an empty string passes. -/
def load_login_schema (o : List (String × JValue)) :
    Except (List (String × String)) LoginData :=
  let emailR := checkEmail o "email"
  let pwR := checkStr o "password"
  let unknown := unknownFieldErrors o ["email", "password"]
  match emailR, pwR, unknown with
  | .ok e, .ok p, [] => .ok ⟨e, p⟩
  | _, _, _ =>
    .error (errsOf [("email", emailR), ("password", pwR)] ++ unknown)

/-! ## HTTP routing layer (src/app/routes/user.py) -/

/-- An HTTP response: status code and JSON body. -/
abbrev Response := Nat × JValue

/-- The 400 response whose body reports that no input data was provided. -/
def noInputResp : Response :=
  (400, .obj [("error", .str "No input data provided")])

/-- The 400 body built from a ValidationError: `err.messages` maps each
offending field to its list of messages. -/
def validationResp (errs : List (String × String)) : Response :=
  (400, .obj [("error", .str "Validation error"),
              ("messages", .obj (errs.map (fun fm => (fm.1, .arr [.str fm.2]))))])

/-- Running `schema.load` on a non-dict payload raises a schema-level error. -/
def objOf : JValue → Except (List (String × String)) (List (String × JValue))
  | .obj o => .ok o
  | _ => .error [("_schema", "Invalid input type.")]

/-- Embedding of the `POST /users` handler `create_user` in src/app/routes/user.py.
`body = none` models `request.get_json()` yielding no data. -/
def create_user_route (body : Option JValue) (db : DB) : Response × DB :=
  match body with
  | none => (noInputResp, db)
  | some v =>
    if jfalsy v then (noInputResp, db)
    else
      match objOf v with
      | .error errs => (validationResp errs, db)
      | .ok o =>
        match load_user_schema o with
        | .error errs => (validationResp errs, db)
        | .ok d =>
          match create_user db d.name d.email d.password with
          | .error .integrityError =>
            ((409, .obj [("error", .str "User with this email already exists")]), db)
          | .ok (uid, db') =>
            ((201, .obj [("message", .str "User created successfully"),
                         ("user_id", .int uid)]), db')

/-- Embedding of the `PUT /user/<int:user_id>` handler `update_user`. -/
def update_user_route (user_id : Nat) (body : Option JValue) (db : DB) :
    Response × DB :=
  match body with
  | none => (noInputResp, db)
  | some v =>
    if jfalsy v then (noInputResp, db)
    else
      match objOf v with
      | .error errs => (validationResp errs, db)
      | .ok o =>
        match load_update_schema o with
        | .error errs => (validationResp errs, db)
        | .ok d =>
          match update_user db user_id d.name d.email with
          | .error .integrityError =>
            ((409, .obj [("error", .str "Email already in use")]), db)
          | .ok (true, db') =>
            ((200, .obj [("message", .str "User updated successfully")]), db')
          | .ok (false, db') =>
            ((404, .obj [("error", .str "User not found")]), db')

/-- Embedding of the `POST /login` handler `login`. -/
def login_route (body : Option JValue) (db : DB) : Response × DB :=
  match body with
  | none => (noInputResp, db)
  | some v =>
    if jfalsy v then (noInputResp, db)
    else
      match objOf v with
      | .error errs => (validationResp errs, db)
      | .ok o =>
        match load_login_schema o with
        | .error errs => (validationResp errs, db)
        | .ok d =>
          match verify_login db d.email d.password with
          | some u =>
            ((200, .obj [("status", .str "success"), ("user_id", .int u.id),
                         ("message", .str "Login successful")]), db)
          | none =>
            ((401, .obj [("status", .str "failed"),
                         ("error", .str "Invalid credentials")]), db)

/-- The database produced by running src/init_db.py: the three seeded
sample users with hashed passwords; the AUTOINCREMENT counter stands at 4
and ids 1, 2, 3 have been issued. -/
def initDb : DB :=
  { rows := [⟨1, "John Doe", "john@example.com", hashPassword 0 "password123"⟩,
             ⟨2, "Jane Smith", "jane@example.com", hashPassword 1 "secret456"⟩,
             ⟨3, "Bob Johnson", "bob@example.com", hashPassword 2 "qwerty789"⟩],
    nextId := 4, saltSrc := 3, issuedIds := [1, 2, 3] }

/-- Whether a field check succeeded. -/
def fieldOk : Except String String → Bool
  | .ok _ => true
  | .error _ => false

/-! ## Theorems checking the specification claims -/

theorem fieldOk_false_iff (v : Except String String) :
    fieldOk v = false ↔ ∃ m, v = .error m := by
  cases v <;> simp [fieldOk]

theorem errsOf_key_mem (l : List (String × Except String String)) (f : String) :
    f ∈ (errsOf l).map Prod.fst ↔ ∃ m, (f, Except.error m) ∈ l := by
  induction l with
  | nil => simp [errsOf]
  | cons hd tl ih =>
    obtain ⟨k, v⟩ := hd
    cases v with
    | error m =>
      simp only [errsOf, List.filterMap_cons] at ih ⊢
      simp only [List.map_cons, List.mem_cons, ih, Prod.mk.injEq,
        Except.error.injEq]
      constructor
      · rintro (hk | ⟨m2, hm⟩)
        · exact ⟨m, Or.inl ⟨hk, rfl⟩⟩
        · exact ⟨m2, Or.inr hm⟩
      · rintro ⟨m2, ⟨hk, _⟩ | hm⟩
        · exact Or.inl hk
        · exact Or.inr ⟨m2, hm⟩
    | ok v =>
      simp only [errsOf, List.filterMap_cons] at ih ⊢
      rw [ih]
      constructor
      · rintro ⟨m2, hm⟩
        exact ⟨m2, List.mem_cons_of_mem _ hm⟩
      · rintro ⟨m2, hm⟩
        rcases List.mem_cons.mp hm with h | h
        · exact absurd h (by simp)
        · exact ⟨m2, h⟩

theorem errsOf_eq_nil_iff (l : List (String × Except String String)) :
    errsOf l = [] ↔ ∀ p ∈ l, fieldOk p.2 = true := by
  induction l with
  | nil => simp [errsOf]
  | cons hd tl ih =>
    obtain ⟨k, v⟩ := hd
    cases v <;>
      simp only [errsOf, List.filterMap_cons, fieldOk] at ih ⊢ <;>
      simp [ih, fieldOk]

theorem unknown_key_not_mem (o : List (String × JValue)) (decl : List String)
    (f : String) (hf : f ∈ decl) :
    f ∉ (unknownFieldErrors o decl).map Prod.fst := by
  intro h
  simp only [unknownFieldErrors, List.map_map, List.mem_map,
    Function.comp] at h
  obtain ⟨kv, hkv, hfst⟩ := h
  have := (List.mem_filter.mp hkv).2
  rw [hfst] at this
  simp at this
  exact this hf

/-- C6: the spec and the docstring of `search_users` promise
case-insensitive *substring* matching, but the code interpolates the query
into a `LIKE` pattern unescaped, so `LIKE` wildcards in the query are
interpreted: searching for `"%"` returns every seeded user even though no
seeded user's name contains the character `%` at all. -/
theorem C6_search_like_wildcard_eval :
    search_users initDb "%" = get_all_users initDb ∧
    initDb.rows.all (fun r => !(r.name.data.contains '%')) = true :=
  ⟨rfl, by decide⟩

/-- C7 counterexample: a login body whose password is the empty string
passes `LoginSchema` validation (the schema has no length constraint on
`password`), reaches `verify_login`, and is answered 401 Invalid
credentials — not the 400 validation error the claim requires. -/
theorem C7_counterexample :
    load_login_schema [("email", .str "john@example.com"), ("password", .str "")] =
      .ok ⟨"john@example.com", ""⟩ ∧
    login_route (some (.obj [("email", .str "john@example.com"),
                             ("password", .str "")])) initDb =
      ((401, .obj [("status", .str "failed"),
                   ("error", .str "Invalid credentials")]), initDb) :=
  ⟨rfl, rfl⟩

/-- C7 amended: `LoginSchema` requires `password` to be present and a
string but not non-empty: a login body with a syntactically valid email
and empty-string password passes validation, reaches the store's
`verify_login`, and the response is the one determined by `verify_login`'s
outcome (401 Invalid credentials when it fails), never a 400 validation
error. -/
theorem C7_empty_password_reaches_store (db : DB) (e : String)
    (hv : isValidEmail e = true) :
    load_login_schema [("email", .str e), ("password", .str "")] = .ok ⟨e, ""⟩ ∧
    login_route (some (.obj [("email", .str e), ("password", .str "")])) db =
      (match verify_login db e "" with
       | some u =>
         ((200, .obj [("status", .str "success"), ("user_id", .int u.id),
                      ("message", .str "Login successful")]), db)
       | none =>
         ((401, .obj [("status", .str "failed"),
                      ("error", .str "Invalid credentials")]), db)) := by
  have hload : load_login_schema [("email", .str e), ("password", .str "")] =
      .ok ⟨e, ""⟩ := by
    simp [load_login_schema, checkEmail, checkStr, lookupField,
      unknownFieldErrors, hv]
  refine ⟨hload, ?_⟩
  simp only [login_route, jfalsy, objOf, hload]
  cases hverify : verify_login db e "" <;> simp [hverify]

/-- C7 amended, witness: login with `jane@example.com` and empty password
against the seeded database passes validation and is answered 401. -/
theorem C7_empty_password_witness :
    load_login_schema [("email", .str "jane@example.com"), ("password", .str "")] =
      .ok ⟨"jane@example.com", ""⟩ ∧
    login_route (some (.obj [("email", .str "jane@example.com"),
                             ("password", .str "")])) initDb =
      (match verify_login initDb "jane@example.com" "" with
       | some u =>
         ((200, .obj [("status", .str "success"), ("user_id", .int u.id),
                      ("message", .str "Login successful")]), initDb)
       | none =>
         ((401, .obj [("status", .str "failed"),
                      ("error", .str "Invalid credentials")]), initDb)) :=
  C7_empty_password_reaches_store initDb "jane@example.com" (by decide)

/-- C9: hashing then verifying with the original plaintext succeeds;
verifying against a different plaintext fails (and `verifyPassword` is a
total function, so it never raises); and the two digests of a repeated
`hash` call on the same plaintext differ, because the second call draws a
fresh salt. -/
theorem C9_hash_verify_roundtrip (p q : String) (s : Nat) (hpq : p ≠ q) :
    verifyPassword (hashPassword s p) p = true ∧
    verifyPassword (hashPassword s p) q = false ∧
    (hashCall p s).1 ≠ (hashCall p (hashCall p s).2).1 := by
  refine ⟨by simp [verifyPassword, hashPassword], ?_, ?_⟩
  · simp only [verifyPassword, hashPassword]
    simpa using fun h => hpq h
  · simp [hashCall, hashPassword, Digest.mk.injEq]

/-- C9 witness at plaintexts "abc" / "abd" and salt 0. -/
theorem C9_hash_verify_witness :
    verifyPassword (hashPassword 0 "abc") "abc" = true ∧
    verifyPassword (hashPassword 0 "abc") "abd" = false ∧
    (hashCall "abc" 0).1 ≠ (hashCall "abc" (hashCall "abc" 0).2).1 :=
  C9_hash_verify_roundtrip "abc" "abd" 0 (by decide)

/-- C10: a request body parsing to a falsy JSON value (the empty object
included) is answered 400 `{"error": "No input data provided"}` by all
three body-consuming routes, identically to a request with no body at
all; in particular no per-field validation messages are produced and the
database is unchanged. -/
theorem C10_falsy_body_no_input (v : JValue) (db : DB) (uid : Nat)
    (hf : jfalsy v = true) :
    create_user_route (some v) db = (noInputResp, db) ∧
    update_user_route uid (some v) db = (noInputResp, db) ∧
    login_route (some v) db = (noInputResp, db) ∧
    create_user_route (some v) db = create_user_route none db ∧
    update_user_route uid (some v) db = update_user_route uid none db ∧
    login_route (some v) db = login_route none db := by
  simp [create_user_route, update_user_route, login_route, hf]

/-- C10 witness at the empty-object body `{}`. -/
theorem C10_falsy_body_witness :
    create_user_route (some (.obj [])) initDb = (noInputResp, initDb) ∧
    update_user_route 1 (some (.obj [])) initDb = (noInputResp, initDb) ∧
    login_route (some (.obj [])) initDb = (noInputResp, initDb) ∧
    create_user_route (some (.obj [])) initDb = create_user_route none initDb ∧
    update_user_route 1 (some (.obj [])) initDb =
      update_user_route 1 none initDb ∧
    login_route (some (.obj [])) initDb = login_route none initDb :=
  C10_falsy_body_no_input (.obj []) initDb 1 rfl

/-- C1: when some row already holds email `e` (here: exactly one row, as
the uniqueness invariant guarantees), creating another user with `e`
raises the integrity error in the store, the route answers 409 with the
duplicate-email message and an unchanged database (no row inserted, no
crash), and afterwards `list_all` output is unchanged and still holds
exactly one row with email `e`. -/
theorem C1_duplicate_email_conflict (db : DB) (o : List (String × JValue))
    (n e p : String)
    (hload : load_user_schema o = .ok ⟨n, e, p⟩)
    (hone : (db.rows.filter (fun r => r.email == e)).length = 1) :
    create_user db n e p = .error .integrityError ∧
    create_user_route (some (.obj o)) db =
      ((409, .obj [("error", .str "User with this email already exists")]), db) ∧
    ((create_user_route (some (.obj o)) db).2.rows.filter
        (fun r => r.email == e)).length = 1 ∧
    get_all_users (create_user_route (some (.obj o)) db).2 = get_all_users db := by
  have hne : db.rows.filter (fun r => r.email == e) ≠ [] := by
    intro h
    rw [h] at hone
    simp at hone
  have hany : db.rows.any (fun r => r.email == e) = true := by
    obtain ⟨r, hr⟩ := List.exists_mem_of_ne_nil _ hne
    have := List.mem_filter.mp hr
    exact List.any_eq_true.mpr ⟨r, this.1, this.2⟩
  have hcreate : create_user db n e p = .error .integrityError := by
    simp [create_user, hany]
  have honempty : o ≠ [] := by
    intro h
    subst h
    simp [load_user_schema, checkStr, checkEmail, checkLenMin, lookupField,
      unknownFieldErrors, errsOf] at hload
  have hjf : jfalsy (.obj o) = false := by
    cases o with
    | nil => exact absurd rfl honempty
    | cons a l => simp [jfalsy]
  have hroute : create_user_route (some (.obj o)) db =
      ((409, .obj [("error", .str "User with this email already exists")]), db) := by
    simp [create_user_route, hjf, objOf, hload, hcreate]
  exact ⟨hcreate, hroute, by rw [hroute]; exact hone, by rw [hroute]⟩

/-- C1 witness: creating "Ann" with the already-seeded email
`john@example.com` against the seeded database. -/
theorem C1_duplicate_email_witness :
    create_user initDb "Ann" "john@example.com" "abcdef" =
      .error .integrityError ∧
    create_user_route
        (some (.obj [("name", .str "Ann"), ("email", .str "john@example.com"),
                     ("password", .str "abcdef")])) initDb =
      ((409, .obj [("error", .str "User with this email already exists")]),
        initDb) ∧
    ((create_user_route
        (some (.obj [("name", .str "Ann"), ("email", .str "john@example.com"),
                     ("password", .str "abcdef")])) initDb).2.rows.filter
        (fun r => r.email == "john@example.com")).length = 1 ∧
    get_all_users (create_user_route
        (some (.obj [("name", .str "Ann"), ("email", .str "john@example.com"),
                     ("password", .str "abcdef")])) initDb).2 =
      get_all_users initDb :=
  C1_duplicate_email_conflict initDb
    [("name", .str "Ann"), ("email", .str "john@example.com"),
     ("password", .str "abcdef")]
    "Ann" "john@example.com" "abcdef" rfl (by decide)

/-- C2: a login attempt with a stored email but wrong password and one
with an email absent from the store both make `verify_login` return
`none`, and the login route answers both with the identical response:
401 `{"status": "failed", "error": "Invalid credentials"}` on an
unchanged database — no signal distinguishes the two cases. -/
theorem C2_login_indistinguishable (db : DB) (e1 p1 e2 p2 : String)
    (r : UserRow)
    (hfound : db.rows.find? (fun x => x.email == e1) = some r)
    (hwrong : verifyPassword r.password p1 = false)
    (habsent : db.rows.find? (fun x => x.email == e2) = none)
    (hv1 : isValidEmail e1 = true) (hv2 : isValidEmail e2 = true) :
    verify_login db e1 p1 = none ∧ verify_login db e2 p2 = none ∧
    login_route (some (.obj [("email", .str e1), ("password", .str p1)])) db =
      ((401, .obj [("status", .str "failed"),
                   ("error", .str "Invalid credentials")]), db) ∧
    login_route (some (.obj [("email", .str e2), ("password", .str p2)])) db =
      login_route (some (.obj [("email", .str e1), ("password", .str p1)])) db := by
  have h1 : verify_login db e1 p1 = none := by
    simp [verify_login, hfound, hwrong]
  have h2 : verify_login db e2 p2 = none := by
    simp [verify_login, habsent]
  have hl1 : load_login_schema [("email", .str e1), ("password", .str p1)] =
      .ok ⟨e1, p1⟩ := by
    simp [load_login_schema, checkEmail, checkStr, lookupField,
      unknownFieldErrors, hv1]
  have hl2 : load_login_schema [("email", .str e2), ("password", .str p2)] =
      .ok ⟨e2, p2⟩ := by
    simp [load_login_schema, checkEmail, checkStr, lookupField,
      unknownFieldErrors, hv2]
  have hr1 : login_route (some (.obj [("email", .str e1), ("password", .str p1)]))
      db = ((401, .obj [("status", .str "failed"),
                        ("error", .str "Invalid credentials")]), db) := by
    simp [login_route, jfalsy, objOf, hl1, h1]
  have hr2 : login_route (some (.obj [("email", .str e2), ("password", .str p2)]))
      db = ((401, .obj [("status", .str "failed"),
                        ("error", .str "Invalid credentials")]), db) := by
    simp [login_route, jfalsy, objOf, hl2, h2]
  exact ⟨h1, h2, hr1, hr2.trans hr1.symm⟩

/-- C2 witness: wrong password for the seeded `john@example.com` versus
the unknown email `nobody@example.com`. -/
theorem C2_login_indistinguishable_witness :
    verify_login initDb "john@example.com" "wrong" = none ∧
    verify_login initDb "nobody@example.com" "x" = none ∧
    login_route (some (.obj [("email", .str "john@example.com"),
                             ("password", .str "wrong")])) initDb =
      ((401, .obj [("status", .str "failed"),
                   ("error", .str "Invalid credentials")]), initDb) ∧
    login_route (some (.obj [("email", .str "nobody@example.com"),
                             ("password", .str "x")])) initDb =
      login_route (some (.obj [("email", .str "john@example.com"),
                               ("password", .str "wrong")])) initDb :=
  C2_login_indistinguishable initDb "john@example.com" "wrong"
    "nobody@example.com" "x"
    ⟨1, "John Doe", "john@example.com", hashPassword 0 "password123"⟩
    rfl rfl rfl (by decide) (by decide)

/-- C3: every record produced by `get_all_users`, `get_user_by_id` and
`search_users` carries exactly the fields `id`, `name`, `email`, in that
order — in particular never a password field; only `verify_login`'s
`SELECT *` reads the stored hash. -/
theorem C3_reads_exclude_password (db : DB) :
    (∀ rec ∈ get_all_users db, rec.map Prod.fst = ["id", "name", "email"]) ∧
    (∀ i rec, get_user_by_id db i = some rec →
      rec.map Prod.fst = ["id", "name", "email"]) ∧
    (∀ s, ∀ rec ∈ search_users db s,
      rec.map Prod.fst = ["id", "name", "email"]) := by
  refine ⟨?_, ?_, ?_⟩
  · intro rec hrec
    obtain ⟨r, _, hr⟩ := List.mem_map.mp hrec
    rw [← hr]
    rfl
  · intro i rec h
    obtain ⟨r, _, hr⟩ := Option.map_eq_some'.mp h
    rw [← hr]
    rfl
  · intro s rec hrec
    obtain ⟨r, _, hr⟩ := List.mem_map.mp hrec
    rw [← hr]
    rfl

/-- C3 witness: the seeded John Doe record as listed by `get_all_users`. -/
theorem C3_reads_exclude_password_witness :
    ([("id", JValue.int 1), ("name", JValue.str "John Doe"),
      ("email", JValue.str "john@example.com")]).map Prod.fst =
      ["id", "name", "email"] :=
  (C3_reads_exclude_password initDb).1 _
    (by simp [get_all_users, initDb, projectRow])

/-- C4: on a well-formed database, creating a user with an email no row
holds succeeds, returns the AUTOINCREMENT id — strictly greater than every
id the store ever issued, the ids of since-deleted users included — and a
subsequent `get_user_by_id` on that id returns exactly the supplied name
and email, with no password field. -/
theorem C4_create_fresh_monotone_id (db : DB) (n e p : String)
    (hwf : db.wf)
    (hfresh : db.rows.all (fun r => !(r.email == e)) = true) :
    ∃ db', create_user db n e p = .ok (db.nextId, db') ∧
      (∀ j ∈ db.issuedIds, j < db.nextId) ∧
      get_user_by_id db' db.nextId =
        some [("id", .int db.nextId), ("name", .str n), ("email", .str e)] := by
  obtain ⟨hnodup, hbound, hmemIssued⟩ := hwf
  have hnone : db.rows.any (fun r => r.email == e) = false := by
    rw [List.any_eq_false]
    intro r hr
    have := List.all_eq_true.mp hfresh r hr
    simpa using this
  refine ⟨{ rows := db.rows ++ [⟨db.nextId, n, e, hashPassword db.saltSrc p⟩],
            nextId := db.nextId + 1, saltSrc := db.saltSrc + 1,
            issuedIds := db.issuedIds ++ [db.nextId] }, ?_,
          fun j hj => hbound j hj, ?_⟩
  · simp [create_user, hnone]
  · have hno : db.rows.find? (fun r => r.id == db.nextId) = none := by
      rw [List.find?_eq_none]
      intro r hr
      have := hbound _ (hmemIssued r hr)
      simp only [beq_iff_eq]
      omega
    simp [get_user_by_id, List.find?_append, hno, projectRow]

/-- C4 witness: creating "Ann" with the fresh email `ann@x.com` on the
seeded database. -/
theorem C4_create_fresh_witness :
    ∃ db', create_user initDb "Ann" "ann@x.com" "abcdef" =
      .ok (initDb.nextId, db') ∧
      (∀ j ∈ initDb.issuedIds, j < initDb.nextId) ∧
      get_user_by_id db' initDb.nextId =
        some [("id", .int initDb.nextId), ("name", .str "Ann"),
              ("email", .str "ann@x.com")] :=
  C4_create_fresh_monotone_id initDb "Ann" "ann@x.com" "abcdef"
    (by decide) (by decide)

/-- C5: whatever `update_user` returns without an integrity error, the
resulting table is the old one row-for-row, with ids and stored password
hashes untouched everywhere, rows whose id differs from the argument
wholly unchanged, and only the matching row's name/email possibly
rewritten; and when no row matches the id it returns `false` with the
whole database unchanged. -/
theorem C5_update_frame (db : DB) (i : Nat) (n e : String) :
    (∀ b db', update_user db i n e = .ok (b, db') →
      List.Forall₂ (fun r r' => r'.id = r.id ∧ r'.password = r.password ∧
        (r.id ≠ i → r' = r)) db.rows db'.rows ∧
      (b = false → db' = db)) ∧
    (db.rows.all (fun r => !(r.id == i)) = true →
      update_user db i n e = .ok (false, db)) := by
  constructor
  · intro b db' h
    by_cases hmatch : db.rows.any (fun r => r.id == i) = true
    · by_cases hconf : db.rows.any (fun r => r.id != i && r.email == e) = true
      · simp [update_user, hmatch, hconf] at h
      · rw [update_user, if_pos hmatch, if_neg hconf] at h
        have hb : true = b ∧ ({ db with rows := db.rows.map (fun r =>
            if r.id == i then { r with name := n, email := e } else r) } : DB)
            = db' := by
          simpa using h
        obtain ⟨hb, hdb⟩ := hb
        constructor
        · rw [← hdb]
          simp only []
          rw [List.forall₂_map_right_iff]
          rw [List.forall₂_same]
          intro r hr
          by_cases hid : r.id = i
          · simp [hid]
          · simp [hid]
        · intro hbf
          rw [← hb] at hbf
          exact absurd hbf (by simp)
    · rw [update_user, if_neg hmatch] at h
      have hb : false = b ∧ db = db' := by simpa using h
      obtain ⟨hb, hdb⟩ := hb
      constructor
      · rw [← hdb]
        rw [List.forall₂_same]
        intro r _
        exact ⟨rfl, rfl, fun _ => rfl⟩
      · intro _
        exact hdb.symm
  · intro hall
    have hm : db.rows.any (fun r => r.id == i) = false := by
      rw [List.any_eq_false]
      intro r hr
      have := List.all_eq_true.mp hall r hr
      simpa using this
    rw [update_user, if_neg (by simp [hm])]

/-- C5 witness: updating the absent id 99 on the seeded database returns
`false` and leaves everything unchanged. -/
theorem C5_update_frame_witness :
    update_user initDb 99 "Zed" "zed@example.com" = .ok (false, initDb) :=
  (C5_update_frame initDb 99 "Zed" "zed@example.com").2 (by decide)

theorem jfalsy_obj_of_ne_nil (o : List (String × JValue)) (ho : o ≠ []) :
    jfalsy (.obj o) = false := by
  cases o with
  | nil => exact absurd rfl ho
  | cons a l => simp [jfalsy]

theorem load_user_schema_error_eq (o : List (String × JValue))
    (errs : List (String × String))
    (h : load_user_schema o = .error errs) :
    errs = errsOf [("name", checkLenMin 1 (checkStr o "name")),
                   ("email", checkEmail o "email"),
                   ("password", checkLenMin 6 (checkStr o "password"))]
             ++ unknownFieldErrors o ["name", "email", "password"] ∧
    ¬(fieldOk (checkLenMin 1 (checkStr o "name")) = true ∧
      fieldOk (checkEmail o "email") = true ∧
      fieldOk (checkLenMin 6 (checkStr o "password")) = true ∧
      unknownFieldErrors o ["name", "email", "password"] = []) := by
  revert h
  simp only [load_user_schema]
  cases hn : checkLenMin 1 (checkStr o "name") <;>
    cases he : checkEmail o "email" <;>
      cases hp : checkLenMin 6 (checkStr o "password") <;>
        cases hu : unknownFieldErrors o ["name", "email", "password"] <;>
          intro h <;>
          simp_all [fieldOk]

theorem load_update_schema_error_eq (o : List (String × JValue))
    (errs : List (String × String))
    (h : load_update_schema o = .error errs) :
    errs = errsOf [("name", checkLenMin 1 (checkStr o "name")),
                   ("email", checkEmail o "email")]
             ++ unknownFieldErrors o ["name", "email"] ∧
    ¬(fieldOk (checkLenMin 1 (checkStr o "name")) = true ∧
      fieldOk (checkEmail o "email") = true ∧
      unknownFieldErrors o ["name", "email"] = []) := by
  revert h
  simp only [load_update_schema]
  cases hn : checkLenMin 1 (checkStr o "name") <;>
    cases he : checkEmail o "email" <;>
      cases hu : unknownFieldErrors o ["name", "email"] <;>
        intro h <;>
        simp_all [fieldOk]

theorem load_login_schema_error_eq (o : List (String × JValue))
    (errs : List (String × String))
    (h : load_login_schema o = .error errs) :
    errs = errsOf [("email", checkEmail o "email"),
                   ("password", checkStr o "password")]
             ++ unknownFieldErrors o ["email", "password"] ∧
    ¬(fieldOk (checkEmail o "email") = true ∧
      fieldOk (checkStr o "password") = true ∧
      unknownFieldErrors o ["email", "password"] = []) := by
  revert h
  simp only [load_login_schema]
  cases he : checkEmail o "email" <;>
    cases hp : checkStr o "password" <;>
      cases hu : unknownFieldErrors o ["email", "password"] <;>
        intro h <;>
        simp_all [fieldOk]

theorem key_mem_errs_iff (L : List (String × Except String String))
    (o : List (String × JValue)) (decl : List String) (f : String)
    (v : Except String String)
    (hf : f ∈ decl) (hv : (f, v) ∈ L)
    (hunique : ∀ m, (f, Except.error m) ∈ L → v = .error m) :
    fieldOk v = false ↔
      f ∈ ((errsOf L ++ unknownFieldErrors o decl).map Prod.fst) := by
  rw [List.map_append, List.mem_append]
  constructor
  · intro hfalse
    obtain ⟨m, hm⟩ := (fieldOk_false_iff _).mp hfalse
    exact Or.inl ((errsOf_key_mem _ _).mpr ⟨m, hm ▸ hv⟩)
  · rintro (hmem | hmem)
    · obtain ⟨m, hm⟩ := (errsOf_key_mem _ _).mp hmem
      rw [fieldOk_false_iff]
      exact ⟨m, hunique m hm⟩
    · exact absurd hmem (unknown_key_not_mem o decl f hf)

/-- C8 counterexample: the body `{}` has every required field missing,
yet the create route answers with the generic
`{"error": "No input data provided"}` — the validation layer's
field-listing error (which would name `name`, `email` and `password`) is
never produced, because the route's falsy-body guard fires first. -/
theorem C8_counterexample :
    load_user_schema [] =
      .error [("name", "Missing data for required field."),
              ("email", "Missing data for required field."),
              ("password", "Missing data for required field.")] ∧
    create_user_route (some (.obj [])) initDb = (noInputResp, initDb) ∧
    noInputResp ≠
      validationResp [("name", "Missing data for required field."),
                      ("email", "Missing data for required field."),
                      ("password", "Missing data for required field.")] := by
  refine ⟨rfl, rfl, ?_⟩
  intro h
  have h2 := congrArg (fun r : Response =>
    match r.2 with
    | JValue.obj l => l.length
    | _ => 0) h
  simp [noInputResp, validationResp] at h2

/-- C8 amended: for every request body parsing to a **non-empty** JSON
object on which schema validation fails, each of the three body-consuming
routes answers 400 with the structured validation error whose messages
name every offending field (missing, wrong type, or failed constraint —
not only the first), and the database is unchanged (the store is never
called).  A body parsing to the empty object never reaches validation: it
is answered by the generic no-input 400 instead. -/
theorem C8_validation_lists_all_fields (o : List (String × JValue)) (db : DB)
    (uid : Nat) (ho : o ≠ []) :
    (∀ errs, load_user_schema o = .error errs →
      errs ≠ [] ∧
      create_user_route (some (.obj o)) db = (validationResp errs, db) ∧
      (fieldOk (checkLenMin 1 (checkStr o "name")) = false ↔
        "name" ∈ errs.map Prod.fst) ∧
      (fieldOk (checkEmail o "email") = false ↔
        "email" ∈ errs.map Prod.fst) ∧
      (fieldOk (checkLenMin 6 (checkStr o "password")) = false ↔
        "password" ∈ errs.map Prod.fst)) ∧
    (∀ errs, load_update_schema o = .error errs →
      errs ≠ [] ∧
      update_user_route uid (some (.obj o)) db = (validationResp errs, db) ∧
      (fieldOk (checkLenMin 1 (checkStr o "name")) = false ↔
        "name" ∈ errs.map Prod.fst) ∧
      (fieldOk (checkEmail o "email") = false ↔
        "email" ∈ errs.map Prod.fst)) ∧
    (∀ errs, load_login_schema o = .error errs →
      errs ≠ [] ∧
      login_route (some (.obj o)) db = (validationResp errs, db) ∧
      (fieldOk (checkEmail o "email") = false ↔
        "email" ∈ errs.map Prod.fst) ∧
      (fieldOk (checkStr o "password") = false ↔
        "password" ∈ errs.map Prod.fst)) := by
  have hjf := jfalsy_obj_of_ne_nil o ho
  refine ⟨?_, ?_, ?_⟩
  · intro errs hload
    obtain ⟨heq, hnot⟩ := load_user_schema_error_eq o errs hload
    refine ⟨?_, ?_, ?_, ?_, ?_⟩
    · intro hnil
      rw [hnil] at heq
      obtain ⟨hL, hU⟩ := List.append_eq_nil.mp heq.symm
      have hall := (errsOf_eq_nil_iff _).mp hL
      exact hnot ⟨hall ("name", checkLenMin 1 (checkStr o "name")) (by simp),
        hall ("email", checkEmail o "email") (by simp),
        hall ("password", checkLenMin 6 (checkStr o "password")) (by simp), hU⟩
    · simp [create_user_route, hjf, objOf, hload]
    · rw [heq]
      exact key_mem_errs_iff _ o _ "name" _ (by simp) (by simp)
        (by intro m hm; simp [Prod.mk.injEq] at hm; exact hm.symm)
    · rw [heq]
      exact key_mem_errs_iff _ o _ "email" _ (by simp) (by simp)
        (by intro m hm; simp [Prod.mk.injEq] at hm; exact hm.symm)
    · rw [heq]
      exact key_mem_errs_iff _ o _ "password" _ (by simp) (by simp)
        (by intro m hm; simp [Prod.mk.injEq] at hm; exact hm.symm)
  · intro errs hload
    obtain ⟨heq, hnot⟩ := load_update_schema_error_eq o errs hload
    refine ⟨?_, ?_, ?_, ?_⟩
    · intro hnil
      rw [hnil] at heq
      obtain ⟨hL, hU⟩ := List.append_eq_nil.mp heq.symm
      have hall := (errsOf_eq_nil_iff _).mp hL
      exact hnot ⟨hall ("name", checkLenMin 1 (checkStr o "name")) (by simp),
        hall ("email", checkEmail o "email") (by simp), hU⟩
    · simp [update_user_route, hjf, objOf, hload]
    · rw [heq]
      exact key_mem_errs_iff _ o _ "name" _ (by simp) (by simp)
        (by intro m hm; simp [Prod.mk.injEq] at hm; exact hm.symm)
    · rw [heq]
      exact key_mem_errs_iff _ o _ "email" _ (by simp) (by simp)
        (by intro m hm; simp [Prod.mk.injEq] at hm; exact hm.symm)
  · intro errs hload
    obtain ⟨heq, hnot⟩ := load_login_schema_error_eq o errs hload
    refine ⟨?_, ?_, ?_, ?_⟩
    · intro hnil
      rw [hnil] at heq
      obtain ⟨hL, hU⟩ := List.append_eq_nil.mp heq.symm
      have hall := (errsOf_eq_nil_iff _).mp hL
      exact hnot ⟨hall ("email", checkEmail o "email") (by simp),
        hall ("password", checkStr o "password") (by simp), hU⟩
    · simp [login_route, hjf, objOf, hload]
    · rw [heq]
      exact key_mem_errs_iff _ o _ "email" _ (by simp) (by simp)
        (by intro m hm; simp [Prod.mk.injEq] at hm; exact hm.symm)
    · rw [heq]
      exact key_mem_errs_iff _ o _ "password" _ (by simp) (by simp)
        (by intro m hm; simp [Prod.mk.injEq] at hm; exact hm.symm)

/-- C8 amended, witness: a create body with an empty name, no email and a
non-string password is answered with a validation error naming all three
fields, and the database is untouched. -/
theorem C8_validation_witness :
    ([("name", "Shorter than minimum length 1."),
      ("email", "Missing data for required field."),
      ("password", "Not a valid string.")] : List (String × String)) ≠ [] ∧
    create_user_route
        (some (.obj [("name", .str ""), ("password", .int 3)])) initDb =
      (validationResp [("name", "Shorter than minimum length 1."),
                       ("email", "Missing data for required field."),
                       ("password", "Not a valid string.")], initDb) ∧
    (fieldOk (checkLenMin 1
        (checkStr [("name", .str ""), ("password", .int 3)] "name")) = false ↔
      "name" ∈ ([("name", "Shorter than minimum length 1."),
                 ("email", "Missing data for required field."),
                 ("password", "Not a valid string.")]).map Prod.fst) ∧
    (fieldOk (checkEmail [("name", .str ""), ("password", .int 3)] "email")
        = false ↔
      "email" ∈ ([("name", "Shorter than minimum length 1."),
                  ("email", "Missing data for required field."),
                  ("password", "Not a valid string.")]).map Prod.fst) ∧
    (fieldOk (checkLenMin 6
        (checkStr [("name", .str ""), ("password", .int 3)] "password"))
        = false ↔
      "password" ∈ ([("name", "Shorter than minimum length 1."),
                     ("email", "Missing data for required field."),
                     ("password", "Not a valid string.")]).map Prod.fst) :=
  (C8_validation_lists_all_fields [("name", .str ""), ("password", .int 3)]
      initDb 1 (by simp)).1
    [("name", "Shorter than minimum length 1."),
     ("email", "Missing data for required field."),
     ("password", "Not a valid string.")] rfl

end UserService
